import Mathlib

/-!
Verification of the Ammora chat backend (Flask app `app.py`, services
`firebase_service.py` and `llm_service.py`) against its natural-language
specification.  The Python code is shallowly embedded: each Firestore
collection becomes an association list inside a `Store` record, each
service method becomes a Lean function on `Store`, and the `/api/chat`
handler becomes a function producing an event trace, a response and the
updated store/cache.  `try/except` blocks whose behaviour matters to a
claim are modelled with an explicit `dbFail` flag selecting the handler
path.
-/

namespace Ammora

/-! ## Association-list helpers (Firestore documents keyed by id) -/

/-- Lookup of a document by key. -/
def getk {α : Type} : List (String × α) → String → Option α
  | [], _ => none
  | (k', v) :: t, k => if k' = k then some v else getk t k

/-- Write (create-or-replace) of a document by key. -/
def setk {α : Type} : List (String × α) → String → α → List (String × α)
  | [], k, v => [(k, v)]
  | (k', v') :: t, k, v => if k' = k then (k, v) :: t else (k', v') :: setk t k v

/-! ## Data model (Firestore documents)

A stored chat message in `users/{user_id}/messages` carries the fields
written by `save_message` (`user_id`, `message`, `type`, `timestamp`,
`chat_session_id`; the constant `is_typing`/`metadata` fields and the
post-hoc `id` field are omitted as no code path reads them). -/

structure StoredMsg where
  user_id : String
  message : String
  mtype : String
  timestamp : Nat
  chat_session_id : Option String
deriving Repr, DecidableEq

/-- The trimmed record `get_user_messages` builds from a stored document:
`{'type': ..., 'message': ..., 'timestamp': ...}`. -/
structure Msg where
  mtype : String
  message : String
  timestamp : Nat
deriving Repr, DecidableEq

def StoredMsg.toMsg (m : StoredMsg) : Msg :=
  ⟨m.mtype, m.message, m.timestamp⟩

/-- A user document in the `users` collection. -/
structure UserDoc where
  name : String
  age : Nat
  email : String
deriving Repr, DecidableEq

/-- The `users/{user_id}/metadata/openai_thread` document.  Both fields are
optional: `get_thread_data` reads `msg_count` with `.get('msg_count', 0)`. -/
structure ThreadDoc where
  thread_id : Option String
  msg_count : Option Nat
deriving Repr, DecidableEq

/-- Result record of `get_thread_data`. -/
structure ThreadData where
  thread_id : Option String
  msg_count : Nat
deriving Repr, DecidableEq

/-- A document of the top-level `messages` collection, which
`update_session_metadata` queries by its `chatSessionId` field. -/
structure TopMsg where
  chatSessionId : String
deriving Repr, DecidableEq

/-- A `chat_sessions` document (opaque payload). -/
structure SessionDoc where
  payload : Nat
deriving Repr, DecidableEq

/-- The Firestore state visible to the code under verification.
Preferences are modelled as the single preference document (if any) of the
`users/{user_id}/preferences` subcollection, as a key/value dictionary. -/
structure Store where
  users : List (String × UserDoc)
  prefs : List (String × List (String × String))
  userMessages : List (String × List StoredMsg)
  threadDocs : List (String × ThreadDoc)
  chatSessions : List (String × SessionDoc)
  topMessages : List TopMsg
deriving Repr, DecidableEq

/-! ## FirebaseService (src/services/firebase_service.py)

Each method's `try/except` is modelled by a `dbFail` flag: `dbFail = true`
means the underlying Firestore call raised, so the `except` branch runs. -/

/-- `FirebaseService.get_user`: returns the user document, `None` if absent
or on error. -/
def get_user (s : Store) (user_id : String) (dbFail : Bool) : Option UserDoc :=
  if dbFail then none else getk s.users user_id

/-- `FirebaseService.get_user_preferences`: first document of the
`preferences` subcollection, `None` if absent or on error. -/
def get_user_preferences (s : Store) (user_id : String) (dbFail : Bool) :
    Option (List (String × String)) :=
  if dbFail then none else getk s.prefs user_id

/-- `FirebaseService.get_thread_id`: the `thread_id` field of the
`openai_thread` document, `None` if the document is absent or on error. -/
def get_thread_id (s : Store) (user_id : String) (dbFail : Bool) : Option String :=
  if dbFail then none
  else match getk s.threadDocs user_id with
    | some d => d.thread_id
    | none => none

/-- `FirebaseService.get_thread_data`: if the `openai_thread` document
exists, returns `thread_id` and `msg_count` (defaulting the count to 0 via
`data.get('msg_count', 0)`); returns `None` when the document does not
exist, and `None` on error. -/
def get_thread_data (s : Store) (user_id : String) (dbFail : Bool) : Option ThreadData :=
  if dbFail then none
  else match getk s.threadDocs user_id with
    | some d => some ⟨d.thread_id, d.msg_count.getD 0⟩
    | none => none

/-- `FirebaseService.save_thread_id`: `.set({'thread_id': thread_id,
'msg_count': 0, 'updated_at': ...}, merge=True)`.  Every field of the
modelled document is in the written dictionary, so the merge write replaces
the document; returns `True` on success, `False` (state unchanged) on
error. -/
def save_thread_id (s : Store) (user_id thread_id : String) (dbFail : Bool) :
    Store × Bool :=
  if dbFail then (s, false)
  else ({ s with threadDocs := setk s.threadDocs user_id ⟨some thread_id, some 0⟩ }, true)

/-- `FirebaseService.increment_thread_count`: `ref.update({'msg_count':
firestore.Increment(1)})`; `update` on a missing document raises, the
`except` swallows it (state unchanged). -/
def increment_thread_count (s : Store) (user_id : String) (dbFail : Bool) : Store :=
  if dbFail then s
  else match getk s.threadDocs user_id with
    | some d =>
        let d' : ThreadDoc := ⟨d.thread_id, some (d.msg_count.getD 0 + 1)⟩
        { s with threadDocs := setk s.threadDocs user_id d' }
    | none => s

/-- Ascending key order used by `messages.sort(key=lambda x:
x.get('timestamp') or 0)` (timestamps are total in the model, so the `or 0`
fallback is the timestamp itself). -/
def msgLE (a b : Msg) : Prop := a.timestamp ≤ b.timestamp

instance : DecidableRel msgLE := fun a b => Nat.decLe a.timestamp b.timestamp

instance : IsTotal Msg msgLE := ⟨fun a b => Nat.le_total a.timestamp b.timestamp⟩

instance : IsTrans Msg msgLE := ⟨fun _ _ _ h h' => Nat.le_trans h h'⟩

/-- Descending order of the Firestore query `order_by('timestamp',
direction=DESCENDING)` over stored documents. -/
def storedGE (a b : StoredMsg) : Prop := b.timestamp ≤ a.timestamp

instance : DecidableRel storedGE := fun a b => Nat.decLe b.timestamp a.timestamp

/-- `FirebaseService.get_user_messages`: streams the user's `messages`
subcollection ordered newest-first, keeps at most `limit` documents, trims
each document to `{type, message, timestamp}`, then re-sorts the batch
oldest-first; any error yields `[]`. -/
def get_user_messages (s : Store) (user_id : String) (limit : Nat) (dbFail : Bool) :
    List Msg :=
  if dbFail then []
  else
    let stored := (getk s.userMessages user_id).getD []
    let fetched := (List.insertionSort storedGE stored).take limit
    List.insertionSort msgLE (fetched.map StoredMsg.toMsg)

/-- `FirebaseService.save_message`: appends a document with the given
fields to `users/{user_id}/messages` and returns its generated id; on error
returns `None` with the state unchanged. -/
def save_message (s : Store) (user_id : String) (chat_session_id : Option String)
    (message_text message_type : String) (now : Nat) (dbFail : Bool) :
    Store × Option String :=
  if dbFail then (s, none)
  else
    let msgs := (getk s.userMessages user_id).getD []
    let docId := "m" ++ toString msgs.length
    let doc : StoredMsg := ⟨user_id, message_text, message_type, now, chat_session_id⟩
    ({ s with userMessages := setk s.userMessages user_id (msgs ++ [doc]) }, some docId)

/-- `FirebaseService.update_session_metadata`: counts the top-level
`messages` documents whose `chatSessionId` matches, but the
`chat_sessions` update statement is commented out in the source, so the
function performs no write and returns `None`; the `except` branch also
returns `None`. -/
def update_session_metadata (s : Store) (chat_session_id : Option String)
    (dbFail : Bool) : Store × Unit :=
  if dbFail then (s, ())
  else
    let message_count :=
      (s.topMessages.filter (fun m => some m.chatSessionId = chat_session_id)).length
    let _ := message_count
    (s, ())

/-! ## LLMService (src/services/llm_service.py)

The OpenAI SDK is the external collaborator; a `LLMClient` record models
one behaviour of the remote side: the id handed out by `threads.create`,
the set of thread ids that accept `messages.create` (an invalid or expired
thread makes `add_message` raise), the stream of run statuses observed by
the poll loop, and the latest thread message once a run completes. -/

inductive RunStatus
  | completed
  | failed
  | cancelled
  | expired
  | queued
  | in_progress
deriving Repr, DecidableEq

def statusName : RunStatus → String
  | .completed => "completed"
  | .failed => "failed"
  | .cancelled => "cancelled"
  | .expired => "expired"
  | .queued => "queued"
  | .in_progress => "in_progress"

/-- Statuses at which the poll loop stops (`completed` breaks; `failed`,
`cancelled` and `expired` raise). -/
def isTerminal : RunStatus → Bool
  | .completed => true
  | .failed => true
  | .cancelled => true
  | .expired => true
  | .queued => false
  | .in_progress => false

inductive PollResult
  | completed
  | raised (st : RunStatus)
deriving Repr, DecidableEq

/-- The `while True` loop of `get_ai_response` (llm_service.py lines
94-105): at iteration `i` it retrieves `statuses i`; `completed` breaks,
`failed`/`cancelled`/`expired` raise, anything else loops again.  The
source imposes no bound, so the loop is given explicit fuel: `none` means
the loop is still running after `fuel` polls. -/
def pollLoop (statuses : Nat → RunStatus) : Nat → Nat → Option PollResult
  | _, 0 => none
  | i, fuel + 1 =>
    match statuses i with
    | .completed => some .completed
    | .failed => some (.raised .failed)
    | .cancelled => some (.raised .cancelled)
    | .expired => some (.raised .expired)
    | .queued => pollLoop statuses (i + 1) fuel
    | .in_progress => pollLoop statuses (i + 1) fuel

structure LLMClient where
  freshThreadId : String
  validThreads : List String
  runStatuses : Nat → RunStatus
  latestRole : String
  latestText : String

/-- Python truthiness of an optional string (`if not current_thread_id`,
`if system_prompt`): `None` and `""` are falsy. -/
def truthy : Option String → Bool
  | none => false
  | some s => !(s == "")

/-- Observable steps of one `get_ai_response` execution; the payload of a
message-adding step is the content sent to the remote thread. -/
inductive LLMEvent
  | createThread
  | injectContext (content : String)
  | addUserMessage (content : String)
deriving Repr, DecidableEq

/-- The context message prefix of llm_service.py line 71. -/
def contextMsg (system_prompt : String) : String :=
  "SYSTEM_CONTEXT: The following are the users confirmed preferences. " ++
    "Please allow them to guide your personality dynamics: " ++ system_prompt

/-- The `except` wrapper at llm_service.py lines 125-127. -/
def wrapLLMError (msg : String) : String :=
  "Failed to get AI response: " ++ msg

/-- `LLMService.get_ai_response(user_message, thread_id=None,
system_prompt=None)`: creates a thread when none (or an empty id) is
given; adds a `SYSTEM_CONTEXT` message exactly when `system_prompt` is
truthy; adds the user message; starts a run and polls it; on completion
returns the latest thread message text (or a fallback string when its role
is not `assistant`) together with the thread id used.  Any exception is
re-raised as `Failed to get AI response: ...`; the overall result is
`none` when the poll loop is still running after `fuel` polls. -/
def get_ai_response (client : LLMClient) (fuel : Nat) (user_message : String)
    (thread_id : Option String := none) (system_prompt : Option String := none) :
    Option (Except String (String × String)) × List LLMEvent :=
  let fresh := !(truthy thread_id)
  let current := if fresh then client.freshThreadId else thread_id.getD ""
  let evs : List LLMEvent := if fresh then [.createThread] else []
  let inject := truthy system_prompt
  if inject ∧ current ∉ client.validThreads then
    -- `add_message` of the context message raises on an invalid thread
    (some (.error (wrapLLMError ("invalid thread: " ++ current))), evs)
  else
    let evs := evs ++
      (if inject then [LLMEvent.injectContext (contextMsg (system_prompt.getD ""))] else [])
    if current ∈ client.validThreads then
      let evs := evs ++ [LLMEvent.addUserMessage user_message]
      match pollLoop client.runStatuses 0 fuel with
      | none => (none, evs)
      | some .completed =>
          if client.latestRole == "assistant" then
            (some (.ok (client.latestText, current)), evs)
          else
            (some (.ok ("Error: No response from AI", current)), evs)
      | some (.raised st) =>
          (some (.error (wrapLLMError ("Run failed with status: " ++ statusName st))), evs)
    else
      -- `add_message` of the user message raises on an invalid thread
      (some (.error (wrapLLMError ("invalid thread: " ++ current))), evs)

/-! ## The keyword binding of the call at app.py line 296

`chat` invokes `llm_service.get_ai_response(system_prompt=...,
conversation_history=..., user_message=...)`.  Python binds keyword
arguments by parameter name; a keyword that matches no parameter raises
`TypeError` before the callee body runs. -/

/-- Parameter names of `LLMService.get_ai_response` (after `self`). -/
def get_ai_response_params : List String :=
  ["user_message", "thread_id", "system_prompt"]

/-- Parameters of `get_ai_response` without a default value. -/
def get_ai_response_required : List String := ["user_message"]

/-- Keywords used by the call at app.py line 296. -/
def chat_call_kwargs : List String :=
  ["system_prompt", "conversation_history", "user_message"]

/-- A pure keyword-only Python call binds iff every keyword names a
parameter and every parameter without a default is supplied. -/
def kwargsBind (params required kwargs : List String) : Bool :=
  kwargs.all (fun k => params.contains k) && required.all (fun p => kwargs.contains p)

/-- The `TypeError` text raised by the call at app.py line 296. -/
def typeErrorMsg : String :=
  "TypeError: get_ai_response() got an unexpected keyword argument: conversation_history"

/-- Value of the call expression `llm_service.get_ai_response(
system_prompt=..., conversation_history=..., user_message=...)`: the
keyword `conversation_history` matches no parameter of `get_ai_response`
(see `c1_chat_invocation_raises_typeerror`), so the call raises
`TypeError` before the callee body runs — for every argument value, the
expression yields this exception and no LLM event. -/
def chat_llm_call_expr : Option (Except String String) × List LLMEvent :=
  (some (.error typeErrorMsg), [])

/-! ## Short-Term History Cache

`app.py` imports `services.session_cache`, which is repository code not
present under `src/`; it is modelled from the specification (section 4.2,
Short-Term History Cache). -/

/-- The cache: a process-local map from user id to the cached ordered
sequence of recent turns. -/
abbrev Cache := List (String × List Msg)

/-- The spec default bound N on a cached sequence. -/
def cacheBound : Nat := 10

/-- Modelled from the spec: `session_cache.get_history` (spec
`getHistory`) — `services/session_cache.py` is absent from `src/`.
Returns none on cold miss and the cached ordered sequence on hit, with no
store access. -/
def cache_get_history (c : Cache) (user_id : String) : Option (List Msg) :=
  getk c user_id

/-- Modelled from the spec: `session_cache.update_history` (spec
`setHistory`) — `services/session_cache.py` is absent from `src/`.
Replaces the cached sequence wholesale. -/
def cache_update_history (c : Cache) (user_id : String) (msgs : List Msg) : Cache :=
  setk c user_id msgs

/-- Modelled from the spec: `session_cache.append_message` (spec
`appendTurn`) — `services/session_cache.py` is absent from `src/`.
Appends one turn, trimming from the front beyond the bound N; a no-op when
no entry exists for the user. -/
def cache_append_message (c : Cache) (user_id : String) (m : Msg) : Cache :=
  match getk c user_id with
  | none => c
  | some h =>
      let h' := h ++ [m]
      setk c user_id (if cacheBound < h'.length then h'.drop (h'.length - cacheBound) else h')

/-! ## Context Builder

`app.py` imports `services.prompt_builder`, which is repository code not
present under `src/`; it is modelled from the specification (section 6,
Context Builder). -/

/-- A provider-format history entry produced by
`format_conversation_history`. -/
structure ChatTurn where
  role : String
  content : String
deriving Repr, DecidableEq

/-- Modelled from the spec: `prompt_builder.build_system_prompt` (spec
`buildSystemPrompt(profile, preferences) -> string`) —
`services/prompt_builder.py` is absent from `src/`.  Turns a user profile
plus preferences into a natural-language system prompt. -/
def build_system_prompt (u : UserDoc) (prefs : List (String × String)) : String :=
  "User profile: " ++ u.name ++ ". Preferences: " ++
    String.intercalate ", " (prefs.map (fun kv => kv.1 ++ "=" ++ kv.2))

/-- Modelled from the spec: `prompt_builder.format_conversation_history`
(spec `formatHistory(turns) -> providerFormat`) —
`services/prompt_builder.py` is absent from `src/`.  Turns a raw message
list into a provider-ready role/content conversation format. -/
def format_conversation_history (msgs : List Msg) : List ChatTurn :=
  msgs.map (fun m => ⟨if m.mtype == "user" then "user" else "assistant", m.message⟩)

/-! ## The `/api/chat` handler (app.py lines 175-379) -/

/-- The shared-secret header value (app.py line 28). -/
def API_KEY : String := "321"

/-- `validate_api_key`: the `X-API-Key` header must be present and equal
to `API_KEY`. -/
def validate_api_key (api_key : Option String) : Bool :=
  match api_key with
  | none => false
  | some k => k == API_KEY

/-- The default preference dictionary used when none is stored (app.py
lines 244-249). -/
def default_preferences : List (String × String) :=
  [("conversation_tone", "Gentle"), ("support_type", "Supportive Friend"),
   ("relationship_status", "Unknown"), ("topics_to_avoid", "")]

/-- The history-retrieval fragment of the handler (app.py lines 255-271):
try the cache; on a hit use the cached sequence; on a miss fetch the last
10 messages from the store and write them into the cache wholesale.  The
returned flag records whether the durable store was accessed. -/
def fetch_history (s : Store) (c : Cache) (user_id : String) :
    List Msg × Cache × Bool :=
  match cache_get_history c user_id with
  | some cached => (cached, c, false)
  | none =>
      let msgs := get_user_messages s user_id 10 false
      (msgs, cache_update_history c user_id msgs, true)

/-- The body of a `/api/chat` request. -/
structure ChatRequest where
  api_key : Option String
  user_id : Option String
  chat_session_id : Option String
  message : Option String
deriving Repr, DecidableEq

/-- The JSON response of the handler (status code, `success` flag,
`error` field, `data.message` field). -/
structure Response where
  statusCode : Nat
  success : Bool
  error : Option String
  message : Option String
deriving Repr, DecidableEq

/-- Observable steps of one handler execution, in program order;
`respond` is the point at which the HTTP response is produced. -/
inductive Event
  | userFetched
  | prefsFetched
  | historyFromCache
  | historyFromStore
  | cacheSet
  | llmInvoke
  | llm (e : LLMEvent)
  | saveMessage (mtype : String)
  | cacheAppend (mtype : String)
  | updateSessionMetadata
  | respond (statusCode : Nat)
deriving Repr, DecidableEq

/-- The handler body from the preferences fetch onward (app.py lines
238-366), once validation has passed and `get_user` returned
`user_data`. -/
def chat_core (req : ChatRequest) (s : Store) (c : Cache) (user_data : UserDoc)
    (llmResult : Option (Except String String)) (llmEvents : List LLMEvent)
    (now : Nat) : Option (List Event × Response × Store × Cache) :=
  let user_id := req.user_id.getD ""
  let user_message := req.message.getD ""
  let preferences := (get_user_preferences s user_id false).getD default_preferences
  let (messages, c1, fromStore) := fetch_history s c user_id
  let histEvents : List Event :=
    if fromStore then [.historyFromStore, .cacheSet] else [.historyFromCache]
  let system_prompt := build_system_prompt user_data preferences
  let conversation_history := format_conversation_history messages
  let _ := system_prompt
  let _ := conversation_history
  let pre : List Event :=
    [.userFetched, .prefsFetched] ++ histEvents ++ [.llmInvoke] ++ llmEvents.map .llm
  match llmResult with
  | none => none
  | some (.error e) =>
      some (pre ++ [.respond 500], ⟨500, false, some e, none⟩, s, c1)
  | some (.ok ai_response) =>
      let (s1, _user_msg_id) :=
        save_message s user_id req.chat_session_id user_message "user" now false
      let c2 := cache_append_message c1 user_id ⟨"user", user_message, now⟩
      let (s2, _ai_msg_id) :=
        save_message s1 user_id req.chat_session_id ai_response "ai" now false
      let c3 := cache_append_message c2 user_id ⟨"ai", ai_response, now⟩
      let (s3, _) := update_session_metadata s2 req.chat_session_id false
      some (pre ++
            [.saveMessage "user", .cacheAppend "user", .saveMessage "ai",
             .cacheAppend "ai", .updateSessionMetadata, .respond 200],
            ⟨200, true, none, some ai_response⟩, s3, c3)

/-- The `chat` handler.  The value of the call expression at line 296 is
passed in as `llmResult` (`none` = the call never returns, `some (.error
e)` = it raises `e`, `some (.ok text)` = it returns `text`) together with
the remote-side events `llmEvents` it performed; `chatActual` below
instantiates both with the actual value `chat_llm_call_expr`.  `now` is
the `datetime.now()` timestamp of this request.  The result is `none`
when the handler never returns, otherwise the event trace, the response,
and the updated store and cache. -/
def chat (req : ChatRequest) (s : Store) (c : Cache)
    (llmResult : Option (Except String String)) (llmEvents : List LLMEvent)
    (now : Nat) : Option (List Event × Response × Store × Cache) :=
  if !(validate_api_key req.api_key) then
    some ([.respond 401], ⟨401, false, some "Invalid or missing API key", none⟩, s, c)
  else if !(truthy req.user_id) || !(truthy req.message) then
    some ([.respond 400], ⟨400, false, some "user_id and message are required", none⟩, s, c)
  else
    match get_user s (req.user_id.getD "") false with
    | none =>
        some ([.userFetched, .respond 404],
              ⟨404, false, some "User not found", none⟩, s, c)
    | some user_data => chat_core req s c user_data llmResult llmEvents now

/-- The handler as deployed: the LLM call expression is
`chat_llm_call_expr` (it raises `TypeError`, so `now` is irrelevant to
the persistence path and fixed at 0). -/
def chatActual (req : ChatRequest) (s : Store) (c : Cache) :
    Option (List Event × Response × Store × Cache) :=
  chat req s c chat_llm_call_expr.1 chat_llm_call_expr.2 0

/-! ## Trace predicates and concrete fixtures -/

/-- Events that write to the durable store or to the cache. -/
def isPersistEvent : Event → Bool
  | .saveMessage _ => true
  | .cacheAppend _ => true
  | .cacheSet => true
  | .updateSessionMetadata => true
  | _ => false

/-- The event at which the HTTP response is produced. -/
def isRespond : Event → Bool
  | .respond _ => true
  | _ => false

/-- A context-injection step of the LLM client. -/
def isInjectEvent : Event → Bool
  | .llm (.injectContext _) => true
  | _ => false

/-- True when some store or cache write occurs strictly before the
response is produced. -/
def persistsBeforeRespond (evs : List Event) : Bool :=
  (evs.takeWhile (fun e => !(isRespond e))).any isPersistEvent

def user0 : UserDoc := ⟨"Alice", 30, "alice@example.com"⟩

/-- A store holding only user `u1`. -/
def store0 : Store := ⟨[("u1", user0)], [], [], [], [], []⟩

/-- A store where user `u2` has an `openai_thread` document with neither
field set. -/
def threadStore0 : Store := ⟨[("u2", user0)], [], [], [("u2", ⟨none, none⟩)], [], []⟩

/-- User `u1` with thread record `t1` at turn count 49. -/
def store49 : Store := ⟨[("u1", user0)], [], [], [("u1", ⟨some "t1", some 49⟩)], [], []⟩

/-- User `u1` with thread record `t1` at turn count 50. -/
def store50 : Store := ⟨[("u1", user0)], [], [], [("u1", ⟨some "t1", some 50⟩)], [], []⟩

/-- A valid chat request for user `u1`. -/
def req0 : ChatRequest := ⟨some "321", some "u1", none, some "hi"⟩

/-- A cache already holding one turn for user `u1`. -/
def cache0 : Cache := [("u1", [⟨"user", "hello", 1⟩])]

/-- A remote side on which no thread id is usable (every `add_message`
raises), though runs would complete. -/
def badThreadClient : LLMClient :=
  ⟨"t-new", [], fun _ => RunStatus.completed, "assistant", "Hello!"⟩

/-- The event trace of `chatActual req0` over an empty cache: the
invocation raises, so the handler answers 500 after caching the fetched
history. -/
def actualTrace0 : List Event :=
  [.userFetched, .prefsFetched, .historyFromStore, .cacheSet, .llmInvoke, .respond 500]

/-! # Theorems -/

theorem getk_setk_self {α : Type} (l : List (String × α)) (k : String) (v : α) :
    getk (setk l k v) k = some v := by
  induction l with
  | nil => simp [setk, getk]
  | cons p t ih =>
    by_cases h : p.1 = k
    · simp [setk, h, getk]
    · simp [setk, h, getk, ih]

/-- C6 counterexample: for user `u1`, who has no thread record in
`store0`, `get_thread_data` returns `none` — not the zero-value record
the claim requires. -/
theorem c6_counterexample_absent_record_gives_none :
    get_thread_data store0 "u1" false = none := rfl

/-- C6 (amended): for a user with no `openai_thread` document,
`get_thread_data` returns `none` (an absent result, not a zero-value
record); when a document exists it returns its thread id (possibly
absent) and its `msg_count` defaulted to 0; on a store error it also
returns `none`. -/
theorem c6_get_thread_data_amended (s : Store) (user_id : String) :
    (getk s.threadDocs user_id = none → get_thread_data s user_id false = none)
    ∧ (∀ d, getk s.threadDocs user_id = some d →
        get_thread_data s user_id false = some ⟨d.thread_id, d.msg_count.getD 0⟩)
    ∧ get_thread_data s user_id true = none := by
  refine ⟨fun h => ?_, fun d h => ?_, rfl⟩ <;> simp [get_thread_data, h]

/-- C6 witness: the amended theorem applied at concrete stores: `u1` has
no record in `store0` (result `none`), `u2` has a field-less record in
`threadStore0` (result: no thread id, count 0). -/
theorem c6_witness :
    get_thread_data store0 "u1" false = none
    ∧ get_thread_data threadStore0 "u2" false = some ⟨none, 0⟩ :=
  ⟨(c6_get_thread_data_amended store0 "u1").1 rfl,
   (c6_get_thread_data_amended threadStore0 "u2").2.1 ⟨none, none⟩ rfl⟩

/-- C7: immediately after `save_thread_id` (with the write succeeding),
the stored turn count is 0 regardless of the prior store contents, and
the stored thread identifier is the one passed in. -/
theorem c7_save_thread_id_resets_count (s : Store) (user_id thread_id : String) :
    get_thread_data (save_thread_id s user_id thread_id false).1 user_id false =
      some ⟨some thread_id, 0⟩ := by
  simp [save_thread_id, get_thread_data, getk_setk_self]

/-- C9: `get_user_messages` returns at most `limit` messages, sorted in
ascending timestamp order even though the query fetches newest-first, and
on a store error it returns the empty list instead of raising. -/
theorem c9_get_user_messages_bounded_sorted_total
    (s : Store) (user_id : String) (limit : Nat) :
    (get_user_messages s user_id limit false).length ≤ limit
    ∧ List.Sorted msgLE (get_user_messages s user_id limit false)
    ∧ get_user_messages s user_id limit true = [] := by
  refine ⟨?_, ?_, rfl⟩
  · show (List.insertionSort msgLE _).length ≤ limit
    rw [List.length_insertionSort, List.length_map]
    exact List.length_take_le _ _
  · exact List.sorted_insertionSort msgLE _

/-- C10: `update_session_metadata` changes nothing: the store (in
particular every `chat_sessions` document) is returned unchanged, the
result is `None`, and both the normal and the error path return without
raising. -/
theorem c10_update_session_metadata_noop
    (s : Store) (chat_session_id : Option String) (dbFail : Bool) :
    update_session_metadata s chat_session_id dbFail = (s, ())
    ∧ ∀ sid, getk (update_session_metadata s chat_session_id dbFail).1.chatSessions sid
        = getk s.chatSessions sid := by
  refine ⟨?_, fun sid => ?_⟩ <;> cases dbFail <;> rfl

/-- C8: history retrieval is read-through: on a cache hit the cached
sequence is used and the durable store is not accessed; on a cold miss
the most recent turns are fetched from the store, written into the cache
wholesale and used; and a second retrieval after the first (with no
intervening writes) never accesses the store. -/
theorem c8_read_through_cache (s : Store) (c : Cache) (user_id : String) :
    (∀ h, cache_get_history c user_id = some h →
        fetch_history s c user_id = (h, c, false))
    ∧ (cache_get_history c user_id = none →
        fetch_history s c user_id =
          (get_user_messages s user_id 10 false,
           cache_update_history c user_id (get_user_messages s user_id 10 false), true))
    ∧ (fetch_history s (fetch_history s c user_id).2.1 user_id).2.2 = false := by
  refine ⟨fun h hh => ?_, fun hm => ?_, ?_⟩
  · simp [fetch_history, hh]
  · simp [fetch_history, hm]
  · cases hc : getk c user_id with
    | some cached => simp [fetch_history, cache_get_history, hc]
    | none =>
        simp [fetch_history, cache_get_history, hc, cache_update_history, getk_setk_self]

/-- C8 witness: with `cache0` holding a turn for `u1` the retrieval is a
hit that does not touch the store; with an empty cache it is a miss that
fetches from the store and fills the cache. -/
theorem c8_witness :
    fetch_history store0 cache0 "u1" = ([⟨"user", "hello", 1⟩], cache0, false)
    ∧ fetch_history store0 [] "u1" =
        (get_user_messages store0 "u1" 10 false,
         cache_update_history [] "u1" (get_user_messages store0 "u1" 10 false), true) :=
  ⟨(c8_read_through_cache store0 cache0 "u1").1 [⟨"user", "hello", 1⟩] rfl,
   (c8_read_through_cache store0 [] "u1").2.1 rfl⟩

theorem pollLoop_const_in_progress (n i : Nat) :
    pollLoop (fun _ => RunStatus.in_progress) i n = none := by
  induction n generalizing i with
  | zero => rfl
  | succ n ih => simpa [pollLoop] using ih (i + 1)

/-- C4 counterexample: against the status stream that is forever
`in_progress`, the poll loop of `get_ai_response` never terminates — no
amount of fuel makes it return, because the source imposes no overall
timeout. -/
theorem c4_counterexample_no_timeout :
    ¬ ∃ fuel, (pollLoop (fun _ => RunStatus.in_progress) 0 fuel).isSome = true := by
  rintro ⟨fuel, h⟩
  rw [pollLoop_const_in_progress] at h
  simp at h

theorem pollLoop_isSome_of_terminal (statuses : Nat → RunStatus) :
    ∀ n i, isTerminal (statuses (i + n)) = true →
      (pollLoop statuses i (n + 1)).isSome = true := by
  intro n
  induction n with
  | zero =>
      intro i h
      cases hs : statuses i <;> simp [pollLoop, hs] <;>
        simp [hs, isTerminal] at h
  | succ n ih =>
      intro i h
      have e : i + 1 + n = i + (n + 1) := by omega
      have h' : isTerminal (statuses (i + 1 + n)) = true := by rw [e]; exact h
      cases hs : statuses i
      case completed => simp [pollLoop, hs]
      case failed => simp [pollLoop, hs]
      case cancelled => simp [pollLoop, hs]
      case expired => simp [pollLoop, hs]
      case queued => simpa [pollLoop, hs] using ih (i + 1) h'
      case in_progress => simpa [pollLoop, hs] using ih (i + 1) h'

theorem terminal_of_pollLoop_isSome (statuses : Nat → RunStatus) :
    ∀ n i, (pollLoop statuses i n).isSome = true →
      ∃ j, isTerminal (statuses (i + j)) = true := by
  intro n
  induction n with
  | zero => intro i h; simp [pollLoop] at h
  | succ n ih =>
      intro i h
      cases hs : statuses i
      case completed => exact ⟨0, by simp [hs, isTerminal]⟩
      case failed => exact ⟨0, by simp [hs, isTerminal]⟩
      case cancelled => exact ⟨0, by simp [hs, isTerminal]⟩
      case expired => exact ⟨0, by simp [hs, isTerminal]⟩
      case queued =>
        rw [pollLoop, hs] at h
        obtain ⟨j, hj⟩ := ih (i + 1) h
        exact ⟨j + 1, by rw [Nat.add_comm j 1, ← Nat.add_assoc]; exact hj⟩
      case in_progress =>
        rw [pollLoop, hs] at h
        obtain ⟨j, hj⟩ := ih (i + 1) h
        exact ⟨j + 1, by rw [Nat.add_comm j 1, ← Nat.add_assoc]; exact hj⟩

/-- C4 (amended): the poll loop has no overall timeout: it terminates for
exactly those remote status sequences that eventually reach a terminal
status (`completed`, or `failed`/`cancelled`/`expired`, which raise); a
sequence that stays non-terminal is polled forever. -/
theorem c4_amended_pollLoop_terminates_iff_terminal
    (statuses : Nat → RunStatus) :
    (∃ fuel, (pollLoop statuses 0 fuel).isSome = true)
      ↔ (∃ k, isTerminal (statuses k) = true) := by
  constructor
  · rintro ⟨fuel, h⟩
    obtain ⟨j, hj⟩ := terminal_of_pollLoop_isSome statuses fuel 0 h
    exact ⟨j, by simpa using hj⟩
  · rintro ⟨k, hk⟩
    exact ⟨k + 1, pollLoop_isSome_of_terminal statuses k 0 (by simpa using hk)⟩

theorem chat_eq_core (req : ChatRequest) (s : Store) (c : Cache)
    (llmResult : Option (Except String String)) (llmEvs : List LLMEvent)
    (now : Nat) (u : UserDoc)
    (h1 : validate_api_key req.api_key = true)
    (h2 : truthy req.user_id = true)
    (h3 : truthy req.message = true)
    (h4 : get_user s (req.user_id.getD "") false = some u) :
    chat req s c llmResult llmEvs now = chat_core req s c u llmResult llmEvs now := by
  simp [chat, h1, h2, h3, h4]

theorem count_llmInvoke_map_llm (l : List LLMEvent) :
    (l.map Event.llm).count Event.llmInvoke = 0 := by
  induction l with
  | nil => rfl
  | cons e t ih => simp [List.count_cons, ih]

theorem all_not_isRespond_map_llm (l : List LLMEvent) :
    (l.map Event.llm).all (fun e => !(isRespond e)) = true := by
  induction l with
  | nil => rfl
  | cons e t ih => simp [isRespond, ih]

/-- C1: with a valid request (key ok, non-empty user id and message, user
present in the store), the handler does not successfully invoke the LLM
client: the keyword `conversation_history` used at app.py line 296 binds
to no parameter of `get_ai_response(user_message, thread_id,
system_prompt)`, so the call raises `TypeError` and the handler answers a
500 failure instead of a success response with assistant text. -/
theorem c1_chat_invocation_raises_typeerror :
    kwargsBind get_ai_response_params get_ai_response_required chat_call_kwargs = false
    ∧ chatActual req0 store0 [] =
        some (actualTrace0, ⟨500, false, some typeErrorMsg, none⟩, store0, [("u1", [])]) :=
  ⟨rfl, rfl⟩

/-- C2 counterexample: a run of the handler in which the LLM call
expression returns text produces a 200 success response, yet durable
saves, cache updates and the metadata update all occur before the
response is produced — persistence is not deferred past the response. -/
theorem c2_counterexample_persists_before_response :
    (chat req0 store0 [] (some (Except.ok "Hello!")) [] 7).map
        (fun o => (o.2.1, persistsBeforeRespond o.1)) =
      some (⟨200, true, none, some "Hello!"⟩, true) := rfl

/-- C2 (amended): on the handler's success path the user turn is saved,
the cache appended, the assistant turn saved, the cache appended again
and the session metadata updated synchronously, in program order, before
the 200 response is produced; no persistence happens after the response
and there is no background unit of work. -/
theorem c2_amended_persistence_synchronous (req : ChatRequest) (s : Store)
    (c : Cache) (ai : String) (llmEvs : List LLMEvent) (now : Nat) (u : UserDoc)
    (h1 : validate_api_key req.api_key = true)
    (h2 : truthy req.user_id = true)
    (h3 : truthy req.message = true)
    (h4 : get_user s (req.user_id.getD "") false = some u) :
    ∃ pre s' c',
      chat req s c (some (.ok ai)) llmEvs now =
        some (pre ++ [Event.saveMessage "user", Event.cacheAppend "user",
                      Event.saveMessage "ai", Event.cacheAppend "ai",
                      Event.updateSessionMetadata, Event.respond 200],
              ⟨200, true, none, some ai⟩, s', c')
      ∧ pre.all (fun e => !(isRespond e)) = true := by
  rw [chat_eq_core req s c _ llmEvs now u h1 h2 h3 h4]
  rcases hfh : fetch_history s c (req.user_id.getD "") with ⟨messages, c1, fromStore⟩
  simp only [chat_core, hfh]
  refine ⟨_, _, _, rfl, ?_⟩
  cases fromStore <;>
    simp [List.all_append, isRespond, all_not_isRespond_map_llm]

/-- C2 witness: the amended theorem at a concrete successful run. -/
theorem c2_witness :
    ∃ pre s' c',
      chat req0 store0 [] (some (.ok "Hi")) [] 3 =
        some (pre ++ [Event.saveMessage "user", Event.cacheAppend "user",
                      Event.saveMessage "ai", Event.cacheAppend "ai",
                      Event.updateSessionMetadata, Event.respond 200],
              ⟨200, true, none, some "Hi"⟩, s', c')
      ∧ pre.all (fun e => !(isRespond e)) = true :=
  c2_amended_persistence_synchronous req0 store0 [] "Hi" [] 3 user0 rfl rfl rfl rfl

/-- C3: evaluation at the failing input.  User `u1` has a stored thread
record `t1` with turn count 50 (`store50`) — the turn count at which the
claim (and the comment at llm_service.py lines 86-88) requires context
injection — yet the handler performs no injection at all: its LLM call
raises `TypeError`, the run contains no context-injection event, and the
run is identical (same trace, same 500 response) at turn count 49, the
count never being consulted. -/
theorem c3_no_injection_and_turn_count_ignored :
    get_thread_data store49 "u1" false = some ⟨some "t1", 49⟩
    ∧ get_thread_data store50 "u1" false = some ⟨some "t1", 50⟩
    ∧ (chatActual req0 store50 []).map (fun o => (o.1, o.2.1)) =
        some (actualTrace0, ⟨500, false, some typeErrorMsg, none⟩)
    ∧ actualTrace0.all (fun e => !(isInjectEvent e)) = true
    ∧ (chatActual req0 store49 []).map (fun o => (o.1, o.2.1)) =
        (chatActual req0 store50 []).map (fun o => (o.1, o.2.1)) :=
  ⟨rfl, rfl, rfl, rfl, rfl⟩

/-- C5 counterexample: when the LLM client reports an invalid remote
thread (as `get_ai_response` does on `badThreadClient`), the handler
makes exactly one LLM invocation — there is no second attempt with a
fresh thread — and surfaces the failure as a 500 response. -/
theorem c5_counterexample_no_retry :
    (get_ai_response badThreadClient 5 "hi" (some "t1") (some "ctx")).1 =
      some (Except.error (wrapLLMError "invalid thread: t1"))
    ∧ (chat req0 store0 [] (some (Except.error (wrapLLMError "invalid thread: t1"))) [] 0).map
        (fun o => (o.1.count Event.llmInvoke, o.2.1)) =
      some (1, ⟨500, false, some (wrapLLMError "invalid thread: t1"), none⟩) :=
  ⟨rfl, rfl⟩

/-- C5 (amended): whatever error the LLM call expression raises —
including an invalid-thread report — the handler performs no retry: the
trace holds exactly one invocation, the durable store is left unchanged,
and the failure is surfaced as a 500 upstream-failure response carrying
that error. -/
theorem c5_amended_single_attempt (req : ChatRequest) (s : Store) (c : Cache)
    (err : String) (llmEvs : List LLMEvent) (now : Nat) (u : UserDoc)
    (h1 : validate_api_key req.api_key = true)
    (h2 : truthy req.user_id = true)
    (h3 : truthy req.message = true)
    (h4 : get_user s (req.user_id.getD "") false = some u) :
    ∃ evs c',
      chat req s c (some (.error err)) llmEvs now =
        some (evs, ⟨500, false, some err, none⟩, s, c')
      ∧ evs.count Event.llmInvoke = 1 := by
  rw [chat_eq_core req s c _ llmEvs now u h1 h2 h3 h4]
  rcases hfh : fetch_history s c (req.user_id.getD "") with ⟨messages, c1, fromStore⟩
  simp only [chat_core, hfh]
  refine ⟨_, _, rfl, ?_⟩
  cases fromStore <;>
    simp [List.count_append, List.count_cons, count_llmInvoke_map_llm]

/-- C5 witness: the amended theorem at a concrete failing run. -/
theorem c5_witness :
    ∃ evs c',
      chat req0 store0 [] (some (.error "boom")) [] 0 =
        some (evs, ⟨500, false, some "boom", none⟩, store0, c')
      ∧ evs.count Event.llmInvoke = 1 :=
  c5_amended_single_attempt req0 store0 [] "boom" [] 0 user0 rfl rfl rfl rfl

end Ammora
